import Mathlib

/-
Verification of the Market-Watcher ingestion-to-publish pipeline.

The repository holds two structurally identical services:
  * src/gnews-service/src/main.py      (class GNewsService, news pipeline)
  * src/scraping-worker/src/main.py    (class StatusInvestScraper, fundamentals pipeline)

This file gives a shallow embedding of both services: connection retry
(connect_rabbitmq), the broker topology they declare, the publish path
(publish_news / publish_data), record normalization (process_article,
scrape_stock), the dedup cache of the news driver (processed_urls), and the
outer driver loop (run) of each service, together with the __main__ blocks.
External effects (the broker, the news API, HTTP, clocks, sleeps) are
modelled by explicit outcome parameters and event traces.
-/

namespace MarketWatcher

/-- Broker topology constants of one service: the arguments its
connect_rabbitmq passes to exchange_declare / queue_declare / queue_bind. -/
structure Topology where
  exchange : String
  exchange_type : String
  exchange_durable : Bool
  queue : String
  queue_durable : Bool
  deriving DecidableEq, Repr

/-- Topology of GNewsService.connect_rabbitmq (gnews-service main.py lines 70-80). -/
def gnewsTopology : Topology :=
  { exchange := "market_news", exchange_type := "fanout", exchange_durable := true,
    queue := "news_queue", queue_durable := true }

/-- Topology of StatusInvestScraper.connect_rabbitmq (scraping-worker main.py lines 66-76). -/
def scraperTopology : Topology :=
  { exchange := "fundamental_data", exchange_type := "fanout", exchange_durable := true,
    queue := "fundamentals_queue", queue_durable := true }

/-- max_retries = 5 in both connect_rabbitmq bodies. -/
def max_retries : Nat := 5

/-- retry_delay = 5 (seconds) in both connect_rabbitmq bodies. -/
def retry_delay : Nat := 5

/-- Observable events of one connect_rabbitmq call. -/
inductive ConnectEvent where
  | attempt (n : Nat)
  | logConnectError (n : Nat)
  | sleep (secs : Nat)
  | declareExchange (exchange : String) (exchange_type : String) (durable : Bool)
  | declareQueue (queue : String) (durable : Bool)
  | bindQueue (exchange : String) (queue : String)
  | connected
  | raiseFatal
  deriving DecidableEq, Repr

/-- Events of the success branch of one loop iteration of connect_rabbitmq:
the connection attempt, the topology declarations, and the normal return. -/
def successEvents (topo : Topology) (n : Nat) : List ConnectEvent :=
  [ConnectEvent.attempt n,
   ConnectEvent.declareExchange topo.exchange topo.exchange_type topo.exchange_durable,
   ConnectEvent.declareQueue topo.queue topo.queue_durable,
   ConnectEvent.bindQueue topo.exchange topo.queue,
   ConnectEvent.connected]

/-- The `for attempt in range(max_retries)` loop of connect_rabbitmq.
`outcomes n = true` means the n-th pika connection attempt succeeds.
On a failed attempt the error is logged, then the loop sleeps retry_delay
seconds if another attempt remains (`attempt < max_retries - 1`), else
re-raises the exception.  `remaining` counts loop iterations left. -/
def connectGo (topo : Topology) (outcomes : Nat → Bool) :
    Nat → Nat → List ConnectEvent
  | _, 0 => []
  | attempt, remaining + 1 =>
    if outcomes attempt then
      successEvents topo attempt
    else if remaining = 0 then
      [ConnectEvent.attempt attempt, ConnectEvent.logConnectError attempt,
       ConnectEvent.raiseFatal]
    else
      ConnectEvent.attempt attempt :: ConnectEvent.logConnectError attempt ::
        ConnectEvent.sleep retry_delay :: connectGo topo outcomes (attempt + 1) remaining

/-- Event trace of one call to connect_rabbitmq (identical code in both
services up to the Topology constants). -/
def connect_rabbitmq (topo : Topology) (outcomes : Nat → Bool) : List ConnectEvent :=
  connectGo topo outcomes 0 max_retries

/-- Whether connect_rabbitmq returns normally (reaches `return`) rather than
re-raising after the last attempt. -/
def connectSucceeds (topo : Topology) (outcomes : Nat → Bool) : Bool :=
  decide (ConnectEvent.connected ∈ connect_rabbitmq topo outcomes)

/-- Outcome function under which every pika connection attempt fails. -/
def allConnectsFail : Nat → Bool := fun _ => false

/-- Number of connection attempts in a connect_rabbitmq trace. -/
def attemptCount (events : List ConnectEvent) : Nat :=
  (events.filter fun e =>
    match e with
    | ConnectEvent.attempt _ => true
    | _ => false).length

/-- Raw article dict as returned by gnews get_news: each field read with
`.get(key, default)`, so each is optionally present. -/
structure Article where
  url : Option String
  title : Option String
  description : Option String
  publisher_title : Option String
  published_date : Option String
  deriving DecidableEq, Repr

/-- The structured news record built by GNewsService.process_article. -/
structure NewsData where
  title : String
  description : String
  url : String
  source : String
  published_at : String
  topic : String
  fetched_at : String
  deriving DecidableEq, Repr

/-- GNewsService.process_article: normalizes a raw article for one topic.
`now` stands for datetime.utcnow().isoformat() at processing time. -/
def process_article (article : Article) (topic : String) (now : String) : NewsData :=
  { title := article.title.getD ""
    description := article.description.getD ""
    url := article.url.getD ""
    source := article.publisher_title.getD "Unknown"
    published_at := article.published_date.getD now
    topic := topic
    fetched_at := now }

/-- GNewsService.fetch_news: calls self.gnews.get_news(topic) inside
try/except; the argument is the outcome of that call (ok with a list of
articles, or error with the exception message).  Any exception is caught,
logged and turned into the empty list. -/
def fetch_news (result : Except String (List Article)) : List Article :=
  match result with
  | Except.ok articles => articles
  | Except.error _ => []

/-- Cache ceiling 10000: `if len(processed_urls) > 10000` in GNewsService.run. -/
def cache_ceiling : Nat := 10000

/-- Cache floor 5000: the `[-5000:]` slice in GNewsService.run. -/
def cache_floor : Nat := 5000

/-- processed_urls.add(url).  The Python set is modelled as a duplicate-free
list in some iteration order (Python sets have no specified order); adding a
member already present leaves the set unchanged. -/
def insertUrl (cache : List String) (url : String) : List String :=
  if url ∈ cache then cache else cache ++ [url]

/-- The capacity check after the add in GNewsService.run:
`if len(processed_urls) > 10000: processed_urls = set(list(processed_urls)[-5000:])`.
The slice `[-5000:]` keeps the last 5000 elements of the iteration order,
which is `List.drop (length - 5000)`. -/
def pruneUrls (cache : List String) : List String :=
  if cache.length > cache_ceiling then cache.drop (cache.length - cache_floor)
  else cache

/-- One mark of the dedup cache: the add followed by its capacity check,
exactly as the two consecutive statements in GNewsService.run. -/
def markUrl (cache : List String) (url : String) : List String :=
  pruneUrls (insertUrl cache url)

/-- The cache reached from the initial empty set by a sequence of marks. -/
def markAll (urls : List String) : List String :=
  urls.foldl markUrl []

/-- A message as assembled by channel.basic_publish in publish_news /
publish_data: exchange, routing_key, body, and the pika.BasicProperties. -/
structure Message where
  exchange : String
  routing_key : String
  body : String
  delivery_mode : Nat
  content_type : String
  deriving DecidableEq, Repr

/-- Observable events of one publish_news / publish_data call. -/
inductive PubEvent where
  | basicPublish (msg : Message)
  | logPublishError
  | reconnect
  deriving DecidableEq, Repr

/-- How one publish_news / publish_data call ends: a normal return (with or
without the message having been delivered), or re-raising the connect error
when the recovery connect_rabbitmq exhausts its retries. -/
inductive PubResult where
  | returned (delivered : Bool)
  | raisedConnectError
  deriving DecidableEq, Repr

/-- Broker behaviour for one publish call: whether channel.basic_publish
raises, and the attempt outcomes of the recovery connect_rabbitmq. -/
structure BrokerEnv where
  writeFails : Bool
  reconnectOutcomes : Nat → Bool

/-- Shared body of GNewsService.publish_news and
StatusInvestScraper.publish_data: build the persistent JSON message and
basic_publish it; on any exception, log the error and call connect_rabbitmq
once (the failed record is not re-published). -/
def publishTo (topo : Topology) (env : BrokerEnv) (body : String) :
    List PubEvent × PubResult :=
  let msg : Message :=
    { exchange := topo.exchange, routing_key := "", body := body,
      delivery_mode := 2, content_type := "application/json" }
  if env.writeFails then
    if connectSucceeds topo env.reconnectOutcomes then
      ([PubEvent.basicPublish msg, PubEvent.logPublishError, PubEvent.reconnect],
       PubResult.returned false)
    else
      ([PubEvent.basicPublish msg, PubEvent.logPublishError, PubEvent.reconnect],
       PubResult.raisedConnectError)
  else
    ([PubEvent.basicPublish msg], PubResult.returned true)

/-- GNewsService.publish_news with `dumps` standing for json.dumps. -/
def publish_news (dumps : NewsData → String) (env : BrokerEnv)
    (news_data : NewsData) : List PubEvent × PubResult :=
  publishTo gnewsTopology env (dumps news_data)

/-- Raw StatusInvest fundamentals record built by
StatusInvestScraper.scrape_stock on success. -/
structure StockData where
  symbol : String
  dividend_yield : Option Rat
  p_vp : Option Rat
  p_l : Option Rat
  roe : Option Rat
  liquidity : Option Rat
  scraped_at : String
  deriving DecidableEq, Repr

/-- StatusInvestScraper.publish_data with `dumps` standing for json.dumps. -/
def publish_data (dumps : StockData → String) (env : BrokerEnv)
    (data : StockData) : List PubEvent × PubResult :=
  publishTo scraperTopology env (dumps data)

/-- The hardcoded mock table in StatusInvestScraper._extract_indicator. -/
def mock_data : List (String × Rat) :=
  [("dividend-yield", 5.5), ("p-vp", 2.3), ("p-l", 15.2), ("roe", 18.5),
   ("liquidity", 1000000)]

/-- StatusInvestScraper._extract_indicator: returns the mock value for the
indicator, defaulting to 0.0 (the `mock_data.get(indicator_name, 0.0)`). -/
def extract_indicator (indicator_name : String) : Option Rat :=
  some ((mock_data.lookup indicator_name).getD 0)

/-- Outcome of the HTTP fetch inside StatusInvestScraper.scrape_stock:
success, a requests.RequestException, or any other exception. -/
inductive ScrapeOutcome where
  | success
  | requestError
  | otherError
  deriving DecidableEq, Repr

/-- StatusInvestScraper.scrape_stock: on a successful page fetch builds the
fundamentals dict; both except branches log and return None.  `now` stands
for datetime.utcnow().isoformat(). -/
def scrape_stock (symbol : String) (outcome : ScrapeOutcome) (now : String) :
    Option StockData :=
  match outcome with
  | ScrapeOutcome.success =>
    some { symbol := symbol
           dividend_yield := extract_indicator "dividend-yield"
           p_vp := extract_indicator "p-vp"
           p_l := extract_indicator "p-l"
           roe := extract_indicator "roe"
           liquidity := extract_indicator "liquidity"
           scraped_at := now }
  | ScrapeOutcome.requestError => none
  | ScrapeOutcome.otherError => none

/-- How the publish_news call inside one news-article step behaves, as seen
by the driver: delivered, or failed with the recovery reconnect succeeding
(publish_news returns normally), or failed with the reconnect also fatal
(publish_news re-raises, aborting the article step before the cache add). -/
inductive PubOutcome where
  | ok
  | failReconnectOk
  | failReconnectFatal
  deriving DecidableEq, Repr

/-- Driver-visible state of the news pipeline: the processed_urls cache,
how many times publish_news was invoked, and how many messages were
actually delivered. -/
structure NewsState where
  processed_urls : List String
  publishCalls : Nat
  delivered : Nat
  deriving DecidableEq, Repr

/-- One article step of GNewsService.run:
`url = article.get('url', ''); if url and url not in processed_urls:` then
publish_news, processed_urls.add(url), and the capacity check.  When
publish_news re-raises (fatal reconnect) the add never executes. -/
def handleArticle (st : NewsState) (article : Article) (outcome : PubOutcome) :
    NewsState :=
  let url := article.url.getD ""
  if url = "" ∨ url ∈ st.processed_urls then st
  else
    match outcome with
    | PubOutcome.ok =>
      { processed_urls := markUrl st.processed_urls url
        publishCalls := st.publishCalls + 1
        delivered := st.delivered + 1 }
    | PubOutcome.failReconnectOk =>
      { processed_urls := markUrl st.processed_urls url
        publishCalls := st.publishCalls + 1
        delivered := st.delivered }
    | PubOutcome.failReconnectFatal =>
      { st with publishCalls := st.publishCalls + 1 }

/-- The article loop of GNewsService.run over one fetched article list,
with every publish succeeding. -/
def newsCycle (st : NewsState) (articles : List Article) : NewsState :=
  articles.foldl (fun s a => handleArticle s a PubOutcome.ok) st

/-- The symbol loop of StatusInvestScraper.run over one cycle: for each
symbol, scrape_stock, and `if data: publish_data(data)`.  Returns the
total number of publish_data invocations; there is no dedup cache in this
service. -/
def scraperCycle (count : Nat) (symbols : List String)
    (outcomes : String → ScrapeOutcome) (now : String) : Nat :=
  symbols.foldl
    (fun n symbol =>
      match scrape_stock symbol (outcomes symbol) now with
      | some _ => n + 1
      | none => n)
    count

/-- How one iteration of the outer `while True` loop of run() ends in
either service: normally, with an unexpected exception reaching the outer
`except Exception`, or with a KeyboardInterrupt. -/
inductive CycleOutcome where
  | ok
  | err
  | interrupt
  deriving DecidableEq, Repr

/-- Observable events of the outer run() loop. -/
inductive RunEvent where
  | cycleStart
  | logMainLoopError
  | cooldownSleep (secs : Nat)
  | shutdownLog
  deriving DecidableEq, Repr

/-- The `while True` loop of run() in both services, driven by a finite
prefix of cycle outcomes.  An ordinary exception is logged and followed by
time.sleep(30), then the loop continues; KeyboardInterrupt logs the
shutdown and breaks.  The returned Bool is true when run() returned
(the loop terminated), false when the given outcomes were exhausted with
the loop still running. -/
def runLoop : List CycleOutcome → List RunEvent × Bool
  | [] => ([], false)
  | CycleOutcome.ok :: rest =>
    let r := runLoop rest
    (RunEvent.cycleStart :: r.1, r.2)
  | CycleOutcome.err :: rest =>
    let r := runLoop rest
    (RunEvent.cycleStart :: RunEvent.logMainLoopError ::
       RunEvent.cooldownSleep 30 :: r.1, r.2)
  | CycleOutcome.interrupt :: _ =>
    ([RunEvent.cycleStart, RunEvent.shutdownLog], true)

/-- Exit record of the gnews-service __main__ block. -/
structure GnewsExit where
  exitCode : Nat
  connectionClosed : Bool
  enteredRunLoop : Bool
  deriving DecidableEq, Repr

/-- The gnews-service __main__ block: `service = GNewsService()` (whose
__init__ calls connect_rabbitmq), then `try: service.run() finally:
service.close()`.  A connect failure in __init__ propagates before the
try/finally, so close() is not called and Python exits non-zero (code 1
here stands for any non-zero exit).  run() only returns on interrupt;
none means the process is still running after the given cycles. -/
def gnewsMain (connectOutcomes : Nat → Bool) (cycles : List CycleOutcome) :
    Option GnewsExit :=
  if connectSucceeds gnewsTopology connectOutcomes then
    if (runLoop cycles).2 then
      some { exitCode := 0, connectionClosed := true, enteredRunLoop := true }
    else none
  else
    some { exitCode := 1, connectionClosed := false, enteredRunLoop := false }

/-- Exit record of the scraping-worker __main__ block. -/
structure ScraperExit where
  exitCode : Nat
  sessionAcquired : Bool
  sessionClosed : Bool
  connectionClosed : Bool
  enteredRunLoop : Bool
  deriving DecidableEq, Repr

/-- The scraping-worker __main__ block: `scraper = StatusInvestScraper()`
(whose __init__ first creates the requests.Session, then calls
connect_rabbitmq), then `try: scraper.run() finally: scraper.close()`.
close() closes both the connection and the session, but a connect failure
in __init__ propagates before the try/finally: the already-created session
is not closed on that path and the process exits non-zero. -/
def scraperMain (connectOutcomes : Nat → Bool) (cycles : List CycleOutcome) :
    Option ScraperExit :=
  if connectSucceeds scraperTopology connectOutcomes then
    if (runLoop cycles).2 then
      some { exitCode := 0, sessionAcquired := true, sessionClosed := true,
             connectionClosed := true, enteredRunLoop := true }
    else none
  else
    some { exitCode := 1, sessionAcquired := true, sessionClosed := false,
           connectionClosed := false, enteredRunLoop := false }

/-- Number of reconnect calls (calls to connect_rabbitmq from the publish
error handler) in a publish trace. -/
def reconnectCount (events : List PubEvent) : Nat :=
  (events.filter fun e =>
    match e with
    | PubEvent.reconnect => true
    | _ => false).length

/-- The sample raw article of the end-to-end scenario of the spec. -/
def sampleArticle : Article :=
  { url := some "https://x/1", title := some "A", description := none,
    publisher_title := none, published_date := none }

/-- The sample article normalized for topic bitcoin at fetch time t0. -/
def sampleNews : NewsData := process_article sampleArticle "bitcoin" "t0"

/-- A sample fundamentals record. -/
def sampleStock : StockData :=
  { symbol := "PETR4", dividend_yield := some 1, p_vp := some 1, p_l := some 1,
    roe := some 1, liquidity := some 1, scraped_at := "t0" }

/- ------------------------------------------------------------------ -/
/- Helper lemmas                                                      -/
/- ------------------------------------------------------------------ -/

theorem insertUrl_length (cache : List String) (url : String) :
    (insertUrl cache url).length
      = if url ∈ cache then cache.length else cache.length + 1 := by
  unfold insertUrl
  split <;> simp

theorem pruneUrls_length (cache : List String) :
    (pruneUrls cache).length
      = if cache_ceiling < cache.length then cache_floor else cache.length := by
  unfold pruneUrls
  split
  · rename_i hgt
    rw [List.length_drop]
    simp only [cache_ceiling, cache_floor] at hgt ⊢
    omega
  · rfl

theorem pruneUrls_subset (cache : List String) : pruneUrls cache ⊆ cache := by
  unfold pruneUrls
  split
  · exact List.drop_subset _ _
  · exact List.Subset.refl _

theorem markUrl_length_le (cache : List String) (url : String)
    (h : cache.length ≤ cache_ceiling) :
    (markUrl cache url).length ≤ cache_ceiling := by
  unfold markUrl
  rw [pruneUrls_length, insertUrl_length]
  by_cases hm : url ∈ cache <;>
    simp only [hm, ite_true, ite_false, cache_ceiling, cache_floor] at h ⊢ <;>
    split <;> omega

theorem foldl_markUrl_le (urls : List String) (cache : List String)
    (h : cache.length ≤ cache_ceiling) :
    (urls.foldl markUrl cache).length ≤ cache_ceiling := by
  induction urls generalizing cache with
  | nil => simpa using h
  | cons u us ih => exact ih _ (markUrl_length_le cache u h)

theorem markUrl_no_prune (cache : List String) (u : String)
    (h3 : u ∉ cache) (h4 : cache.length < cache_ceiling) :
    markUrl cache u = cache ++ [u] := by
  have hlen : (cache ++ [u]).length ≤ cache_ceiling := by
    simp only [List.length_append, List.length_cons, List.length_nil]
    omega
  unfold markUrl insertUrl pruneUrls
  rw [if_neg h3, if_neg (by omega)]

theorem runLoop_terminates_iff (outs : List CycleOutcome) :
    (runLoop outs).2 = true ↔ CycleOutcome.interrupt ∈ outs := by
  induction outs with
  | nil => simp [runLoop]
  | cons c rest ih => cases c <;> simp [runLoop, ih]

theorem connectGo_declares (topo : Topology) (outcomes : Nat → Bool)
    (r a : Nat) (h : ConnectEvent.connected ∈ connectGo topo outcomes a r) :
    ConnectEvent.declareExchange topo.exchange topo.exchange_type topo.exchange_durable
        ∈ connectGo topo outcomes a r
    ∧ ConnectEvent.declareQueue topo.queue topo.queue_durable
        ∈ connectGo topo outcomes a r
    ∧ ConnectEvent.bindQueue topo.exchange topo.queue ∈ connectGo topo outcomes a r := by
  induction r generalizing a with
  | zero => simp [connectGo] at h
  | succ r ih =>
    by_cases ho : outcomes a
    · simp [connectGo, ho, successEvents]
    · by_cases hr : r = 0
      · subst hr
        simp [connectGo, ho] at h
      · have h' : ConnectEvent.connected ∈ connectGo topo outcomes (a + 1) r := by
          simpa [connectGo, ho, hr] using h
        have hrec := ih (a + 1) h'
        simp only [connectGo, ho, hr, if_neg, if_false, Bool.false_eq_true,
          ite_false, List.mem_cons]
        exact ⟨Or.inr (Or.inr (Or.inr hrec.1)),
               Or.inr (Or.inr (Or.inr hrec.2.1)),
               Or.inr (Or.inr (Or.inr hrec.2.2))⟩

theorem handleArticle_empty_url (st : NewsState) (article : Article)
    (outcome : PubOutcome) (h : article.url.getD "" = "") :
    handleArticle st article outcome = st := by
  unfold handleArticle
  simp [h]

theorem handleArticle_seen (st : NewsState) (article : Article)
    (outcome : PubOutcome) (u : String) (hu : article.url = some u)
    (h : u ∈ st.processed_urls) :
    handleArticle st article outcome = st := by
  unfold handleArticle
  simp [hu, h]

theorem handleArticle_fresh_ok (st : NewsState) (article : Article) (u : String)
    (h1 : article.url = some u) (h2 : u ≠ "") (h3 : u ∉ st.processed_urls)
    (h4 : st.processed_urls.length < cache_ceiling) :
    handleArticle st article PubOutcome.ok
      = { processed_urls := st.processed_urls ++ [u]
          publishCalls := st.publishCalls + 1
          delivered := st.delivered + 1 } := by
  unfold handleArticle
  rw [h1]
  simp only [Option.getD_some]
  rw [if_neg (not_or.mpr ⟨h2, h3⟩)]
  rw [markUrl_no_prune st.processed_urls u h3 h4]

theorem handleArticle_fresh_fail (st : NewsState) (article : Article) (u : String)
    (h1 : article.url = some u) (h2 : u ≠ "") (h3 : u ∉ st.processed_urls)
    (h4 : st.processed_urls.length < cache_ceiling) :
    handleArticle st article PubOutcome.failReconnectOk
      = { processed_urls := st.processed_urls ++ [u]
          publishCalls := st.publishCalls + 1
          delivered := st.delivered } := by
  unfold handleArticle
  rw [h1]
  simp only [Option.getD_some]
  rw [if_neg (not_or.mpr ⟨h2, h3⟩)]
  rw [markUrl_no_prune st.processed_urls u h3 h4]

theorem publishTo_head (topo : Topology) (env : BrokerEnv) (body : String) :
    (publishTo topo env body).1.head?
      = some (PubEvent.basicPublish
          { exchange := topo.exchange, routing_key := "", body := body,
            delivery_mode := 2, content_type := "application/json" }) := by
  unfold publishTo
  split
  · split <;> rfl
  · rfl

/- ------------------------------------------------------------------ -/
/- Claim theorems                                                     -/
/- ------------------------------------------------------------------ -/

/-- C1 (amended): in the news pipeline, a record whose URL is returned again
in the next cycle is published exactly once over the two cycles, absent a
prune between them.  The fundamentals pipeline keeps no dedup cache: when
scraping succeeds for the same symbol in two successive cycles, publish_data
is invoked once per cycle, twice over the two cycles. -/
theorem record_published_once_per_pipeline (st : NewsState) (article : Article)
    (u : String) (h1 : article.url = some u) (h2 : u ≠ "")
    (h3 : u ∉ st.processed_urls) (h4 : st.processed_urls.length < cache_ceiling) :
    (newsCycle (newsCycle st [article]) [article]).publishCalls = st.publishCalls + 1
    ∧ scraperCycle (scraperCycle 0 ["PETR4"] (fun _ => ScrapeOutcome.success) "t")
        ["PETR4"] (fun _ => ScrapeOutcome.success) "t" = 2 := by
  constructor
  · have hstep := handleArticle_fresh_ok st article u h1 h2 h3 h4
    have hmem : u ∈ st.processed_urls ++ [u] := by simp
    have hskip := handleArticle_seen
      { processed_urls := st.processed_urls ++ [u]
        publishCalls := st.publishCalls + 1
        delivered := st.delivered + 1 } article PubOutcome.ok u h1 hmem
    simp [newsCycle, hstep, hskip]
  · rfl

/-- Witness for C1 on the end-to-end example of the spec. -/
theorem record_published_once_per_pipeline_witness :
    (newsCycle (newsCycle { processed_urls := [], publishCalls := 0, delivered := 0 }
        [sampleArticle]) [sampleArticle]).publishCalls = 0 + 1
    ∧ scraperCycle (scraperCycle 0 ["PETR4"] (fun _ => ScrapeOutcome.success) "t")
        ["PETR4"] (fun _ => ScrapeOutcome.success) "t" = 2 :=
  record_published_once_per_pipeline
    { processed_urls := [], publishCalls := 0, delivered := 0 }
    sampleArticle "https://x/1" rfl (by decide) (by decide) (by decide)

/-- C1 fails as stated for the fundamentals pipeline: with the scrape
succeeding for the same symbol in two successive cycles, publish_data is
invoked twice for that identity, not once. -/
theorem fundamentals_republish_counterexample :
    scraperCycle (scraperCycle 0 ["PETR4"] (fun _ => ScrapeOutcome.success) "t")
      ["PETR4"] (fun _ => ScrapeOutcome.success) "t" ≠ 1 := by
  decide

/-- C2: on every cache reachable by a sequence of marks from the empty set,
the size right after a mark (the add plus its capacity check) is at most the
10000 ceiling; the mark leaves exactly the 5000-entry floor when the add
pushed the size over the ceiling, otherwise it leaves the post-add size; and
every surviving entry was in the pre-prune (post-add) cache. -/
theorem dedup_cache_bounded (urls : List String) (u : String) :
    (markAll urls).length ≤ cache_ceiling
    ∧ (markUrl (markAll urls) u).length ≤ cache_ceiling
    ∧ (markUrl (markAll urls) u).length
        = (if cache_ceiling < (insertUrl (markAll urls) u).length then cache_floor
           else (insertUrl (markAll urls) u).length)
    ∧ ∀ x ∈ markUrl (markAll urls) u, x ∈ insertUrl (markAll urls) u := by
  have hb : (markAll urls).length ≤ cache_ceiling :=
    foldl_markUrl_le urls [] (by simp [cache_ceiling])
  refine ⟨hb, markUrl_length_le _ _ hb, ?_, ?_⟩
  · unfold markUrl
    exact pruneUrls_length _
  · intro x hx
    exact pruneUrls_subset _ hx

/-- C3 (amended): when every connection attempt fails, connect_rabbitmq makes
exactly 5 attempts with one fixed 5-second sleep between consecutive attempts
(4 sleeps in all), and raises the fatal error right after the 5th failed
attempt, without a 6th attempt; both services then exit non-zero without ever
entering their run() loop. -/
theorem connect_retry_exhaustion (cycles : List CycleOutcome) :
    connect_rabbitmq gnewsTopology allConnectsFail
      = [ConnectEvent.attempt 0, ConnectEvent.logConnectError 0, ConnectEvent.sleep 5,
         ConnectEvent.attempt 1, ConnectEvent.logConnectError 1, ConnectEvent.sleep 5,
         ConnectEvent.attempt 2, ConnectEvent.logConnectError 2, ConnectEvent.sleep 5,
         ConnectEvent.attempt 3, ConnectEvent.logConnectError 3, ConnectEvent.sleep 5,
         ConnectEvent.attempt 4, ConnectEvent.logConnectError 4, ConnectEvent.raiseFatal]
    ∧ attemptCount (connect_rabbitmq gnewsTopology allConnectsFail) = 5
    ∧ connect_rabbitmq scraperTopology allConnectsFail
        = connect_rabbitmq gnewsTopology allConnectsFail
    ∧ gnewsMain allConnectsFail cycles
        = some { exitCode := 1, connectionClosed := false, enteredRunLoop := false }
    ∧ scraperMain allConnectsFail cycles
        = some { exitCode := 1, sessionAcquired := true, sessionClosed := false,
                 connectionClosed := false, enteredRunLoop := false } := by
  have hg : connectSucceeds gnewsTopology allConnectsFail = false := by decide
  have hsc : connectSucceeds scraperTopology allConnectsFail = false := by decide
  refine ⟨by decide, by decide, by decide, ?_, ?_⟩
  · simp [gnewsMain, hg]
  · simp [scraperMain, hsc]

/-- C3 fails as stated: the all-fail trace holds exactly 5 connection
attempts, never 6, and no 6th attempt occurs at which to raise. -/
theorem connect_no_sixth_attempt :
    attemptCount (connect_rabbitmq gnewsTopology allConnectsFail) ≠ 6
    ∧ ConnectEvent.attempt 5 ∉ connect_rabbitmq gnewsTopology allConnectsFail := by
  decide

/-- C4: on a broker write failure inside publish, the failure is logged,
connect_rabbitmq is called exactly once as recovery, the record of that
attempt is never delivered (no automatic re-publish), and the write
exception itself is swallowed: whenever the recovery connect succeeds,
publish returns normally. -/
theorem publish_failure_recovery (topo : Topology) (env : BrokerEnv)
    (body : String) (h : env.writeFails = true) :
    reconnectCount (publishTo topo env body).1 = 1
    ∧ PubEvent.logPublishError ∈ (publishTo topo env body).1
    ∧ (publishTo topo env body).2 ≠ PubResult.returned true
    ∧ (connectSucceeds topo env.reconnectOutcomes = true →
        (publishTo topo env body).2 = PubResult.returned false) := by
  cases hc : connectSucceeds topo env.reconnectOutcomes <;>
    simp [publishTo, h, hc, reconnectCount]

/-- Witness for C4: a failing write with a succeeding recovery connect. -/
theorem publish_failure_recovery_witness :
    reconnectCount (publishTo gnewsTopology ⟨true, fun _ => true⟩ "b").1 = 1
    ∧ PubEvent.logPublishError ∈ (publishTo gnewsTopology ⟨true, fun _ => true⟩ "b").1
    ∧ (publishTo gnewsTopology ⟨true, fun _ => true⟩ "b").2 ≠ PubResult.returned true
    ∧ (connectSucceeds gnewsTopology
          (BrokerEnv.mk true fun _ => true).reconnectOutcomes = true →
        (publishTo gnewsTopology ⟨true, fun _ => true⟩ "b").2
          = PubResult.returned false) :=
  publish_failure_recovery gnewsTopology ⟨true, fun _ => true⟩ "b" rfl

/-- C5: an unexpected exception escaping a run() cycle is caught and logged,
a fixed 30-second cooldown sleep follows, and the loop resumes with the
remaining cycles; the loop terminates only when a KeyboardInterrupt occurs. -/
theorem run_loop_resilience (outs rest : List CycleOutcome) :
    ((runLoop outs).2 = true ↔ CycleOutcome.interrupt ∈ outs)
    ∧ runLoop (CycleOutcome.err :: rest)
        = (RunEvent.cycleStart :: RunEvent.logMainLoopError ::
             RunEvent.cooldownSleep 30 :: (runLoop rest).1, (runLoop rest).2) :=
  ⟨runLoop_terminates_iff outs, rfl⟩

/-- C6: an article whose url field is absent or empty is dropped before the
dedup cache: the article step leaves the driver state unchanged, and a cycle
containing that article equals the cycle without it (same publish count). -/
theorem empty_identity_dropped (st : NewsState) (article : Article)
    (outcome : PubOutcome) (before after : List Article)
    (h : article.url.getD "" = "") :
    handleArticle st article outcome = st
    ∧ newsCycle st (before ++ article :: after) = newsCycle st (before ++ after) := by
  refine ⟨handleArticle_empty_url st article outcome h, ?_⟩
  simp [newsCycle, List.foldl_append,
    show ∀ s : NewsState, handleArticle s article PubOutcome.ok = s from
      fun s => handleArticle_empty_url s article PubOutcome.ok h]

/-- Witness for C6: an article with no url leaves the state unchanged. -/
theorem empty_identity_dropped_witness :
    handleArticle { processed_urls := [], publishCalls := 0, delivered := 0 }
        { url := none, title := some "A", description := none,
          publisher_title := none, published_date := none } PubOutcome.ok
      = { processed_urls := [], publishCalls := 0, delivered := 0 }
    ∧ newsCycle { processed_urls := [], publishCalls := 0, delivered := 0 }
        ([] ++ { url := none, title := some "A", description := none,
                 publisher_title := none, published_date := none } :: [])
      = newsCycle { processed_urls := [], publishCalls := 0, delivered := 0 }
          ([] ++ []) :=
  empty_identity_dropped
    { processed_urls := [], publishCalls := 0, delivered := 0 }
    { url := none, title := some "A", description := none,
      publisher_title := none, published_date := none }
    PubOutcome.ok [] [] (by decide)

/-- C7: each fetcher swallows transient failures instead of throwing:
fetch_news turns any exception of the news client into the empty list and
passes a successful article list through; scrape_stock turns both a
requests error and any other exception into None (zero records). -/
theorem fetcher_error_swallowed (e : String) (articles : List Article)
    (symbol now : String) :
    fetch_news (Except.error e) = []
    ∧ fetch_news (Except.ok articles) = articles
    ∧ scrape_stock symbol ScrapeOutcome.requestError now = none
    ∧ scrape_stock symbol ScrapeOutcome.otherError now = none :=
  ⟨rfl, rfl, rfl, rfl⟩

/-- C8: every successful connect declares the durable fanout exchange and its
bound durable queue with the bit-exact names of its service, and every
publish attempt sends to that exchange with empty routing key, JSON content
type, persistent delivery mode 2, and body the JSON serialization of the
record. -/
theorem broker_topology_and_message (outcomes : Nat → Bool) (env : BrokerEnv)
    (dumpsN : NewsData → String) (dumpsS : StockData → String)
    (news_data : NewsData) (data : StockData)
    (hn : ConnectEvent.connected ∈ connect_rabbitmq gnewsTopology outcomes)
    (hf : ConnectEvent.connected ∈ connect_rabbitmq scraperTopology outcomes) :
    ConnectEvent.declareExchange "market_news" "fanout" true
        ∈ connect_rabbitmq gnewsTopology outcomes
    ∧ ConnectEvent.declareQueue "news_queue" true
        ∈ connect_rabbitmq gnewsTopology outcomes
    ∧ ConnectEvent.bindQueue "market_news" "news_queue"
        ∈ connect_rabbitmq gnewsTopology outcomes
    ∧ ConnectEvent.declareExchange "fundamental_data" "fanout" true
        ∈ connect_rabbitmq scraperTopology outcomes
    ∧ ConnectEvent.declareQueue "fundamentals_queue" true
        ∈ connect_rabbitmq scraperTopology outcomes
    ∧ ConnectEvent.bindQueue "fundamental_data" "fundamentals_queue"
        ∈ connect_rabbitmq scraperTopology outcomes
    ∧ (publish_news dumpsN env news_data).1.head?
        = some (PubEvent.basicPublish
            { exchange := "market_news", routing_key := "",
              body := dumpsN news_data, delivery_mode := 2,
              content_type := "application/json" })
    ∧ (publish_data dumpsS env data).1.head?
        = some (PubEvent.basicPublish
            { exchange := "fundamental_data", routing_key := "",
              body := dumpsS data, delivery_mode := 2,
              content_type := "application/json" }) := by
  have hg := connectGo_declares gnewsTopology outcomes max_retries 0 hn
  have hs := connectGo_declares scraperTopology outcomes max_retries 0 hf
  exact ⟨hg.1, hg.2.1, hg.2.2, hs.1, hs.2.1, hs.2.2,
    publishTo_head gnewsTopology env (dumpsN news_data),
    publishTo_head scraperTopology env (dumpsS data)⟩

/-- Witness for C8: a first-attempt connect success and a clean publish. -/
theorem broker_topology_and_message_witness :
    ConnectEvent.declareExchange "market_news" "fanout" true
        ∈ connect_rabbitmq gnewsTopology (fun _ => true)
    ∧ ConnectEvent.declareQueue "news_queue" true
        ∈ connect_rabbitmq gnewsTopology (fun _ => true)
    ∧ ConnectEvent.bindQueue "market_news" "news_queue"
        ∈ connect_rabbitmq gnewsTopology (fun _ => true)
    ∧ ConnectEvent.declareExchange "fundamental_data" "fanout" true
        ∈ connect_rabbitmq scraperTopology (fun _ => true)
    ∧ ConnectEvent.declareQueue "fundamentals_queue" true
        ∈ connect_rabbitmq scraperTopology (fun _ => true)
    ∧ ConnectEvent.bindQueue "fundamental_data" "fundamentals_queue"
        ∈ connect_rabbitmq scraperTopology (fun _ => true)
    ∧ (publish_news (fun _ => "j") ⟨false, fun _ => false⟩ sampleNews).1.head?
        = some (PubEvent.basicPublish
            { exchange := "market_news", routing_key := "", body := "j",
              delivery_mode := 2, content_type := "application/json" })
    ∧ (publish_data (fun _ => "j") ⟨false, fun _ => false⟩ sampleStock).1.head?
        = some (PubEvent.basicPublish
            { exchange := "fundamental_data", routing_key := "", body := "j",
              delivery_mode := 2, content_type := "application/json" }) :=
  broker_topology_and_message (fun _ => true) ⟨false, fun _ => false⟩
    (fun _ => "j") (fun _ => "j") sampleNews sampleStock (by decide) (by decide)

/-- C9 (amended): a graceful interrupt makes both services release the broker
connection (and the scraper its HTTP session) and exit 0; a startup-time
connect failure exits non-zero before entering the run loop, but on that path
the scraping worker's HTTP session, created before the failed connect, is not
released (construction happens outside the try/finally). -/
theorem exit_path_release (connectOutcomes : Nat → Bool)
    (cycles : List CycleOutcome)
    (hs : connectSucceeds scraperTopology connectOutcomes = true)
    (hg : connectSucceeds gnewsTopology connectOutcomes = true)
    (hi : CycleOutcome.interrupt ∈ cycles) :
    scraperMain connectOutcomes cycles
      = some { exitCode := 0, sessionAcquired := true, sessionClosed := true,
               connectionClosed := true, enteredRunLoop := true }
    ∧ gnewsMain connectOutcomes cycles
        = some { exitCode := 0, connectionClosed := true, enteredRunLoop := true }
    ∧ ∀ badOutcomes : Nat → Bool,
        connectSucceeds scraperTopology badOutcomes = false →
          scraperMain badOutcomes cycles
            = some { exitCode := 1, sessionAcquired := true, sessionClosed := false,
                     connectionClosed := false, enteredRunLoop := false } := by
  have ht : (runLoop cycles).2 = true := (runLoop_terminates_iff cycles).mpr hi
  refine ⟨?_, ?_, ?_⟩
  · simp [scraperMain, hs, ht]
  · simp [gnewsMain, hg, ht]
  · intro bad hb
    simp [scraperMain, hb]

/-- Witness for C9: first-attempt connect success, one interrupted cycle. -/
theorem exit_path_release_witness :
    scraperMain (fun _ => true) [CycleOutcome.interrupt]
      = some { exitCode := 0, sessionAcquired := true, sessionClosed := true,
               connectionClosed := true, enteredRunLoop := true }
    ∧ gnewsMain (fun _ => true) [CycleOutcome.interrupt]
        = some { exitCode := 0, connectionClosed := true, enteredRunLoop := true }
    ∧ ∀ badOutcomes : Nat → Bool,
        connectSucceeds scraperTopology badOutcomes = false →
          scraperMain badOutcomes [CycleOutcome.interrupt]
            = some { exitCode := 1, sessionAcquired := true, sessionClosed := false,
                     connectionClosed := false, enteredRunLoop := false } :=
  exit_path_release (fun _ => true) [CycleOutcome.interrupt]
    (by decide) (by decide) (by decide)

/-- C9 fails as stated: on the startup-time connect-failure exit path of the
scraping worker, the HTTP session created in __init__ is acquired but never
closed even though the process exits (non-zero). -/
theorem startup_failure_session_leak :
    scraperMain allConnectsFail []
      = some { exitCode := 1, sessionAcquired := true, sessionClosed := false,
               connectionClosed := false, enteredRunLoop := false } := by
  decide

/-- C10: when publish_news fails but its recovery reconnect succeeds (so
publish_news returns normally), the news driver still adds the record's URL
to processed_urls right after the failed publish, delivering nothing; from
then on, as long as the URL stays in the cache, every later step for an
article with that URL is skipped and never published. -/
theorem failed_publish_permanently_suppressed (st : NewsState) (article : Article)
    (u : String) (h1 : article.url = some u) (h2 : u ≠ "")
    (h3 : u ∉ st.processed_urls) (h4 : st.processed_urls.length < cache_ceiling) :
    u ∈ (handleArticle st article PubOutcome.failReconnectOk).processed_urls
    ∧ (handleArticle st article PubOutcome.failReconnectOk).delivered = st.delivered
    ∧ ∀ (st' : NewsState) (outcome : PubOutcome), u ∈ st'.processed_urls →
        handleArticle st' article outcome = st' := by
  have hstep := handleArticle_fresh_fail st article u h1 h2 h3 h4
  refine ⟨?_, ?_, ?_⟩
  · rw [hstep]
    simp
  · rw [hstep]
  · intro st' outcome hmem
    exact handleArticle_seen st' article outcome u h1 hmem

/-- Witness for C10: the sample article, failing publish on an empty cache. -/
theorem failed_publish_permanently_suppressed_witness :
    "https://x/1" ∈ (handleArticle
        { processed_urls := [], publishCalls := 0, delivered := 0 }
        sampleArticle PubOutcome.failReconnectOk).processed_urls
    ∧ (handleArticle { processed_urls := [], publishCalls := 0, delivered := 0 }
        sampleArticle PubOutcome.failReconnectOk).delivered = 0
    ∧ ∀ (st' : NewsState) (outcome : PubOutcome),
        "https://x/1" ∈ st'.processed_urls →
          handleArticle st' sampleArticle outcome = st' :=
  failed_publish_permanently_suppressed
    { processed_urls := [], publishCalls := 0, delivered := 0 }
    sampleArticle "https://x/1" rfl (by decide) (by decide) (by decide)

end MarketWatcher
